import Mathlib

/-
Verification of the role subsystem of shell_gpt (sgpt/role.py).

The embedding below translates the Python source faithfully:
Python dicts become insertion-ordered association lists, Python string
operations (slicing, split, strip, str.format, truthiness) are modelled
on lists of characters, exceptions become `Except String`, the file
storage directory becomes a `Store` (a list of persisted records keyed
by name), and the interactive confirmation prompt becomes a boolean
capability argument.
-/

set_option autoImplicit false
set_option maxRecDepth 8192

namespace ShellGPT

/-- Python dict of strings, modelled as an insertion-ordered association list. -/
abbrev Dict := List (String × String)

/-- Python `d.get(k)`: the value of the first (unique) matching key, if any. -/
def dictLookup : Dict → String → Option String
  | [], _ => none
  | (k2, v) :: rest, k => if k2 = k then some v else dictLookup rest k

/-- Python `d[k] = v`: replace the value in place if the key exists, else append. -/
def dictInsert : Dict → String → String → Dict
  | [], k, v => [(k, v)]
  | (k2, v2) :: rest, k, v =>
    if k2 = k then (k2, v) :: rest else (k2, v2) :: dictInsert rest k v

/-- Python `d[k]` for reading: raises `KeyError` when the key is absent. -/
def dictGet (d : Dict) (k : String) : Except String String :=
  match dictLookup d k with
  | some v => Except.ok v
  | none => Except.error "KeyError"

/-- The characters at which Python `str.splitlines` breaks a line:
LF, VT, FF, CR, FS, GS, RS, NEL, LINE SEPARATOR and PARAGRAPH SEPARATOR. -/
def isLineBoundary (c : Char) : Bool :=
  c == '\n' || c == '\x0b' || c == '\x0c' || c == '\r' ||
  c == '\x1c' || c == '\x1d' || c == '\x1e' || c == '\x85' ||
  c == '\u2028' || c == '\u2029'

/-- For a non-empty string, `s.splitlines()[0]`: the characters before the first line boundary. -/
def firstLineChars (l : List Char) : List Char := l.takeWhile (fun c => !isLineBoundary c)

/-- Python slice `s[a:b]` for `0 <= a <= b` (clamped at the end of the string). -/
def pySlice (l : List Char) (a b : Nat) : List Char := (l.drop a).take (b - a)

/-- Python slice `s[:n]`. -/
def pyTake (s : String) (n : Nat) : String := (s.toList.take n).asString

/-- The characters removed by Python `str.strip()` (the `str.isspace` set):
TAB, LF, VT, FF, CR, FS, GS, RS, US, SPACE, NEL, NBSP, OGHAM SPACE MARK,
the EN QUAD .. HAIR SPACE range, LINE and PARAGRAPH SEPARATOR, NARROW
NO-BREAK SPACE, MEDIUM MATHEMATICAL SPACE and IDEOGRAPHIC SPACE. -/
def isPySpace (c : Char) : Bool :=
  c == '\t' || c == '\n' || c == '\x0b' || c == '\x0c' || c == '\r' ||
  c == '\x1c' || c == '\x1d' || c == '\x1e' || c == '\x1f' || c == ' ' ||
  c == '\x85' || c == '\xa0' || c == '\u1680' ||
  (0x2000 ≤ c.toNat && c.toNat ≤ 0x200a) ||
  c == '\u2028' || c == '\u2029' || c == '\u202f' || c == '\u205f' || c == '\u3000'

/-- Python `s.strip()`. -/
def pyStrip (l : List Char) : List Char :=
  ((l.dropWhile isPySpace).reverse.dropWhile isPySpace).reverse

/-- Leftmost occurrence of `sep` in `s`: returns the characters before the
occurrence and the characters after it. -/
def findOcc : List Char → List Char → Option (List Char × List Char)
  | [], sep => if sep.isPrefixOf ([] : List Char) then some ([], []) else none
  | c :: rest, sep =>
    if sep.isPrefixOf (c :: rest) then some ([], (c :: rest).drop sep.length)
    else (findOcc rest sep).map (fun pr => (c :: pr.1, pr.2))

/-- Python `sep in s` (substring containment). -/
def inStr (sep s : List Char) : Bool := (findOcc s sep).isSome

/-- Fuelled worker for `pySplit`; the fuel bounds the number of separator occurrences. -/
def pySplitFuel : Nat → List Char → List Char → List (List Char)
  | 0, s, _ => [s]
  | n + 1, s, sep =>
    match findOcc s sep with
    | none => [s]
    | some (pre, suf) => pre :: pySplitFuel n suf sep

/-- Python `s.split(sep)` for a non-empty separator. -/
def pySplit (s sep : List Char) : List (List Char) := pySplitFuel (s.length + 1) s sep

/-- Fuelled worker for `str_format`; consumes at least one character per step. -/
def formatChars : Nat → List Char → Dict → Except String (List Char)
  | _, [], _ => Except.ok []
  | 0, _ :: _, _ => Except.error "FuelExhausted"
  | n + 1, c :: rest, d =>
    if c == '{' then
      match rest with
      | '{' :: rest2 => (formatChars n rest2 d).map (fun t => '{' :: t)
      | _ =>
        match rest.dropWhile (fun ch => ch != '}') with
        | '}' :: rest2 =>
          match dictLookup d (rest.takeWhile (fun ch => ch != '}')).asString with
          | some v => (formatChars n rest2 d).map (fun t => v.toList ++ t)
          | none => Except.error "KeyError"
        | _ => Except.error "ValueError"
    else if c == '}' then
      match rest with
      | '}' :: rest2 => (formatChars n rest2 d).map (fun t => '}' :: t)
      | _ => Except.error "ValueError"
    else (formatChars n rest d).map (fun t => c :: t)

/-- Python `s.format(**d)` restricted to plain named placeholders, as used in role.py:
every `{key}` is replaced by `d[key]`, a missing key raises `KeyError`. -/
def str_format (s : String) (d : Dict) : Except String String :=
  (formatChars (s.length + 1) s.toList d).map List.asString

/-- The `SHELL_ROLE` template string from role.py. -/
def SHELL_ROLE : String := "Provide only {shell} commands for {os} without any description.\nIf there is a lack of details, provide most logical solution.\nEnsure the output is a valid shell command.\nIf multiple steps required try to combine them together using &&.\nProvide only plain text without Markdown formatting.\nDo not provide markdown formatting such as ```.\n"

/-- The `DESCRIBE_SHELL_ROLE` template string from role.py. -/
def DESCRIBE_SHELL_ROLE : String := "Provide a terse, single sentence description of the given shell command.\nDescribe each argument and option of the command.\nProvide short responses in about 80 words.\nAPPLY MARKDOWN formatting when possible."

/-- The `CODE_ROLE` template string from role.py. -/
def CODE_ROLE : String := "Provide only code as output without any description.\nProvide only code in plain text format without Markdown formatting.\nDo not include symbols such as ``` or ```python.\nIf there is a lack of details, provide most logical solution.\nYou are not allowed to ask for more details.\nFor example if the prompt is \"Hello world Python\", you should return \"print(\x27Hello world\x27)\"."

/-- The `DEFAULT_ROLE` template string from role.py. -/
def DEFAULT_ROLE : String := "You are programming and system administration assistant.\nYou are managing {os} operating system with {shell} shell.\nProvide short responses in about 100 words, unless you are specifically asked for more details.\nIf you need to store any data, assume it will be stored in the conversation.\nAPPLY MARKDOWN formatting when possible."

/-- `role_template(name, role, message_to_role)` from role.py: when the
`message_to_role` string is truthy the role text is returned unchanged,
otherwise the `"You are {name}\n{role}"` form is produced. -/
def role_template (name role message_to_role : String) : String :=
  if message_to_role ≠ "" then role
  else "You are " ++ name ++ "\n" ++ role

/-- A `SystemRole` instance, which is also exactly the persisted record
(`_save` writes `self.__dict__`, whose keys are these three fields). -/
structure SystemRole where
  name : String
  role : String
  message_to_role : Option Dict

/-- `SystemRole.__init__`: formats the role text with `variables` only when the
`variables` dict is truthy (non-`None` and non-empty); stores `message_to_role`
exactly as passed. -/
def SystemRole.init (name role : String) (message_to_role : Option Dict)
    (vars : Option Dict) : Except String SystemRole :=
  match vars with
  | none => Except.ok ⟨name, role, message_to_role⟩
  | some [] => Except.ok ⟨name, role, message_to_role⟩
  | some vs => (str_format role vs).map (fun r => ⟨name, r, message_to_role⟩)

/-- Is there a persisted record with the given name (the `_exists` check)? -/
def anyName : List SystemRole → String → Bool
  | [], _ => false
  | f :: rest, n => f.name == n || anyName rest n

/-- The persisted record with the given name, if any. -/
def findName : List SystemRole → String → Option SystemRole
  | [], _ => none
  | f :: rest, n => if f.name == n then some f else findName rest n

/-- Writing `<name>.json`: overwrite the record with the same name, or add a new file. -/
def insertFile (files : List SystemRole) (f : SystemRole) : List SystemRole :=
  if anyName files f.name then files.map (fun g => if g.name == f.name then f else g)
  else files ++ [f]

/-- The role storage directory: the list of persisted records, oldest first. -/
structure Store where
  files : List SystemRole

/-- `SystemRole._exists`. -/
def Store.existsName (st : Store) (n : String) : Bool := anyName st.files n

/-- `SystemRole._save`: when the record exists the overwrite confirmation can
abort; then the first 20 characters of `self.role` are computed into a local
`message_to_role` string, `self.role` is replaced by `role_template(...)`, and
`self.__dict__` is written to disk.  Note the persisted `message_to_role` field
is the instance attribute set by `__init__`, not the local 20-character key. -/
def Store.save (st : Store) (confirmOverwrite : Bool) (r : SystemRole) :
    Except String (Store × SystemRole) :=
  if st.existsName r.name && !confirmOverwrite then Except.error "Abort"
  else
    let message_to_role := pyTake r.role 20
    let r2 : SystemRole := ⟨r.name, role_template r.name r.role message_to_role, r.message_to_role⟩
    Except.ok (⟨insertFile st.files r2⟩, r2)

/-- `SystemRole.get`: load the record and rebuild the instance with
`cls(**json)`, i.e. `__init__` with no `variables`. -/
def Store.get (st : Store) (n : String) : Except String SystemRole :=
  match findName st.files n with
  | none => Except.error "BadArgumentUsage"
  | some f => SystemRole.init f.name f.role f.message_to_role none

/-- `SystemRole.create`: build the instance from the prompted description and save it. -/
def Store.create (st : Store) (confirmOverwrite : Bool) (n desc : String) :
    Except String (Store × SystemRole) :=
  match SystemRole.init n desc none none with
  | Except.ok r => st.save confirmOverwrite r
  | Except.error e => Except.error e

/-- Outcome of `SystemRole.delete`. -/
inductive DeleteResult where
  | deleted
  | aborted
  | notFound

/-- `SystemRole.delete`: an existing record asks for confirmation (declining
aborts before any change); `unlink` on a missing file raises `FileNotFoundError`. -/
def Store.delete (st : Store) (n : String) (confirmDelete : Bool) : Store × DeleteResult :=
  if st.existsName n then
    if confirmDelete then (⟨st.files.filter (fun g => !(g.name == n))⟩, DeleteResult.deleted)
    else (st, DeleteResult.aborted)
  else (st, DeleteResult.notFound)

/-- The scan loop of `create_defaults`: for every record whose persisted
`message_to_role` field is a truthy dict, insert `d["phrase"] -> d["name"]`
into the registry (raising `KeyError` when a key is absent). -/
def scanRegistry : List SystemRole → Dict → Except String Dict
  | [], reg => Except.ok reg
  | f :: rest, reg =>
    match f.message_to_role with
    | none => scanRegistry rest reg
    | some [] => scanRegistry rest reg
    | some d =>
      match dictGet d "phrase", dictGet d "name" with
      | Except.ok p, Except.ok nm => scanRegistry rest (dictInsert reg p nm)
      | Except.error e, _ => Except.error e
      | _, Except.error e => Except.error e

/-- One iteration of the seeding loop: `if not default_role._exists: default_role._save()`.
Under the guard the record does not exist, so `_save` cannot abort; the error
branch is unreachable and returns the store unchanged. -/
def seedOne (st : Store) (r : SystemRole) : Store :=
  if st.existsName r.name then st
  else
    match st.save true r with
    | Except.ok (st2, _) => st2
    | Except.error _ => st

/-- The seeding phase of `SystemRole.create_defaults`.  Note that in the source
the `variables` dict is passed *positionally*, so it binds to the
`message_to_role` parameter of `__init__` and the `variables` parameter stays
`None` for all four default roles. -/
def seedDefaults (st : Store) (osName shellName : String) : Except String Store := do
  let vars : Dict := [("shell", shellName), ("os", osName)]
  let r1 ← SystemRole.init "ShellGPT" DEFAULT_ROLE (some vars) none
  let r2 ← SystemRole.init "Shell Command Generator" SHELL_ROLE (some vars) none
  let r3 ← SystemRole.init "Shell Command Descriptor" DESCRIBE_SHELL_ROLE (some vars) none
  let r4 ← SystemRole.init "Code Generator" CODE_ROLE none none
  return seedOne (seedOne (seedOne (seedOne st r1) r2) r3) r4

/-- `SystemRole.create_defaults`: seed the four built-in roles, then scan every
persisted record to populate the class-level `message_to_role` registry
(initially empty in a fresh process). -/
def create_defaults (st : Store) (osName shellName : String) :
    Except String (Store × Dict) := do
  let st2 ← seedDefaults st osName shellName
  let reg ← scanRegistry st2.files []
  return (st2, reg)

/-- `SystemRole.get_role_name`: empty message resolves to no role; otherwise the
first line is inspected — a line containing `"You are"` is split on
`"You are "` and field 1 (stripped) is returned (an `IndexError` when the
separator with the trailing space is absent); otherwise the slice `[8:27]` of
the first line is looked up in the registry, a truthy hit being returned. -/
def get_role_name (registry : Dict) (initial_message : String) :
    Except String (Option String) :=
  if initial_message = "" then Except.ok none
  else
    let line0 := firstLineChars initial_message.toList
    let first_twenty_lines := pySlice line0 8 27
    if inStr "You are".toList line0 then
      match pySplit line0 "You are ".toList with
      | _ :: second :: _ => Except.ok (some (pyStrip second).asString)
      | _ => Except.error "IndexError"
    else
      match dictLookup registry first_twenty_lines.asString with
      | some v => if v ≠ "" then Except.ok (some v) else Except.ok none
      | none => Except.ok none

/-! ### Helper lemmas -/

/-- A string is empty exactly when its character list is empty. -/
theorem str_toList_eq_nil_iff (s : String) : s.toList = [] ↔ s = "" := by
  rw [show ([] : List Char) = "".toList from rfl]
  exact String.toList_inj

/-- The 20-character key computed by `_save` is non-empty for a non-empty role text. -/
theorem pyTake_twenty_ne_empty (s : String) (h : s ≠ "") : pyTake s 20 ≠ "" := by
  have hs : s.toList ≠ [] := fun hl => h ((str_toList_eq_nil_iff s).mp hl)
  unfold pyTake
  intro hcon
  rw [List.asString_eq] at hcon
  rw [show ("" : String).toList = [] from rfl] at hcon
  rw [List.take_eq_nil_iff] at hcon
  rcases hcon with h20 | hnil
  · exact absurd h20 (by simp)
  · exact hs hnil

/-- Looking up the name just written by `insertFile` finds the new record. -/
theorem findName_insertFile (files : List SystemRole) (f : SystemRole) :
    findName (insertFile files f) f.name = some f := by
  induction files with
  | nil => simp [insertFile, anyName, findName]
  | cons g t ih =>
    by_cases hg : g.name = f.name
    · simp [insertFile, anyName, findName, hg]
    · cases ha : anyName t f.name with
      | true =>
        simp [insertFile, ha] at ih
        simp [insertFile, anyName, findName, hg, ha, ih]
      | false =>
        simp [insertFile, ha] at ih
        simp [insertFile, anyName, findName, hg, ha, ih]

/-- `pySplitFuel` never returns an empty list of fields. -/
theorem pySplitFuel_ne_nil (n : Nat) (s sep : List Char) : pySplitFuel n s sep ≠ [] := by
  cases n with
  | zero => simp [pySplitFuel]
  | succ m =>
    unfold pySplitFuel
    cases h : findOcc s sep with
    | none => simp
    | some pr => cases pr with | mk pre suf => simp

/-- A two-field split means the separator occurs in the string. -/
theorem findOcc_isSome_of_pySplit_pair (s sep a b : List Char)
    (h : pySplit s sep = [a, b]) : (findOcc s sep).isSome = true := by
  unfold pySplit at h
  cases hocc : findOcc s sep with
  | some pr => rfl
  | none => simp [pySplitFuel, hocc] at h

/-- A prefix of a longer prefix is itself a prefix. -/
theorem isPrefixOf_of_append (p q s : List Char) (h : (p ++ q).isPrefixOf s = true) :
    p.isPrefixOf s = true := by
  rw [List.isPrefixOf_iff_prefix] at h ⊢
  exact (List.prefix_append p q).trans h

/-- If an extended separator occurs in a string, so does the shorter one. -/
theorem inStr_mono (p q s : List Char) (h : inStr (p ++ q) s = true) : inStr p s = true := by
  induction s with
  | nil =>
    unfold inStr findOcc at h ⊢
    split at h
    next hpre => rw [if_pos (isPrefixOf_of_append p q _ hpre)]; rfl
    next => simp at h
  | cons c rest ih =>
    unfold inStr findOcc at h ⊢
    cases hp : p.isPrefixOf (c :: rest) with
    | true => simp [hp]
    | false =>
      split at h
      next hpre =>
        rw [isPrefixOf_of_append p q _ hpre] at hp
        cases hp
      next hpre =>
        simp only [hp, Bool.false_eq_true, if_false, if_neg]
        cases hrest : findOcc rest p with
        | some pr => simp
        | none =>
          cases hrest2 : findOcc rest (p ++ q) with
          | none => rw [hrest2] at h; simp at h
          | some pr2 =>
            have : inStr p rest = true := ih (by unfold inStr; rw [hrest2]; rfl)
            unfold inStr at this
            rw [hrest] at this
            simp at this

/-! ### Claim theorems -/

/-- Claim C1 (code evaluation at the failing input): a record saved with the
19-character description "Provide only code a" persists `message_to_role = none`
(the computed first-20-characters key is not stored), the registry scan inserts
nothing for it, and although the slice `[8:27]` of the message
"system: Provide only code a" equals the first 20 characters of the raw
description, `get_role_name` resolves to no role instead of the record's name. -/
theorem c1_fallback_lookup_fails :
    Store.create ⟨[]⟩ true "shorty" "Provide only code a"
      = Except.ok (⟨[⟨"shorty", "Provide only code a", none⟩]⟩,
                   ⟨"shorty", "Provide only code a", none⟩)
    ∧ scanRegistry [⟨"shorty", "Provide only code a", none⟩] [] = Except.ok []
    ∧ (pySlice (firstLineChars ("system: Provide only code a").toList) 8 27).asString
        = pyTake "Provide only code a" 20
    ∧ get_role_name [] "system: Provide only code a" = Except.ok none :=
  ⟨rfl, rfl, rfl, rfl⟩

/-- Claim C2 (code evaluation at the failing input): creating and saving a role
stores `none` in the persisted `message_to_role` field, even though the
first-20-characters identification key of the description is non-empty; the key
computed inside `_save` is never persisted. -/
theorem c2_key_not_persisted :
    Store.create ⟨[]⟩ true "Translator" "Translate text to French"
      = Except.ok (⟨[⟨"Translator", "Translate text to French", none⟩]⟩,
                   ⟨"Translator", "Translate text to French", none⟩)
    ∧ pyTake "Translate text to French" 20 = "Translate text to Fr"
    ∧ ("Translate text to Fr" : String) ≠ "" :=
  ⟨rfl, rfl, by decide⟩

/-- Claim C3 (code evaluation at the failing input): on a fresh storage
directory the bootstrap raises `KeyError` during its scan phase, because the
three defaults seeded with a variables dict persist that dict in
`message_to_role` and the scan reads its missing "phrase" key; the build phase
does not complete without error. -/
theorem c3_bootstrap_keyerror :
    create_defaults ⟨[]⟩ "Linux" "bash" = Except.error "KeyError" := rfl

/-- Claim C4 (counterexample): a message whose first line contains "You are"
but not "You are " makes `get_role_name` raise `IndexError`, so resolution is
not error-free for every input. -/
theorem c4_indexerror_cex :
    get_role_name [] "You arena" = Except.error "IndexError" := rfl

/-- Claim C4 (amended): `get_role_name` returns a role name or `none` without
raising, for every registry and every message whose first line, whenever it
contains "You are", also contains "You are " with the trailing space. -/
theorem c4_resolve_no_error_amended (registry : Dict) (m : String)
    (h : inStr "You are".toList (firstLineChars m.toList) = true →
         inStr "You are ".toList (firstLineChars m.toList) = true) :
    ∃ r, get_role_name registry m = Except.ok r := by
  by_cases hm : m = ""
  · exact ⟨none, by rw [get_role_name, if_pos hm]⟩
  · unfold get_role_name
    rw [if_neg hm]
    cases h7 : inStr "You are".toList (firstLineChars m.toList) with
    | true =>
      have h8 := h h7
      unfold inStr at h8
      obtain ⟨⟨pre, suf⟩, hocc⟩ := Option.isSome_iff_exists.mp h8
      have htail := pySplitFuel_ne_nil (firstLineChars m.toList).length suf ("You are ".toList)
      obtain ⟨x, xs, hxs⟩ := List.exists_cons_of_ne_nil htail
      refine ⟨some (pyStrip x).asString, ?_⟩
      simp only [h7, if_true, pySplit, pySplitFuel, hocc, hxs]
    | false =>
      cases hd : dictLookup registry ((pySlice (firstLineChars m.toList) 8 27).asString) with
      | none => exact ⟨none, by simp only [h7, hd, Bool.false_eq_true, if_false]⟩
      | some v =>
        by_cases hv : v = ""
        · exact ⟨none, by simp only [h7, hd, hv, Bool.false_eq_true, if_false]; simp⟩
        · exact ⟨some v, by simp only [h7, hd, Bool.false_eq_true, if_false]; simp [hv]⟩

/-- Claim C4 (witness): resolving a plain message yields a non-error result. -/
theorem c4_resolve_no_error_witness : ∃ r, get_role_name [] "hello" = Except.ok r :=
  c4_resolve_no_error_amended [] "hello" (by decide)

/-- Claim C5 (counterexample): creating a role named "X" with the non-empty
description "X" persists the body "X", not the persona form with the
"You are X" prefix line. -/
theorem c5_no_prefix_cex :
    (Store.create ⟨[]⟩ true "X" "X").map (fun p => p.2.role) = Except.ok "X"
    ∧ ("X" : String) ≠ "You are X\nX" :=
  ⟨rfl, by decide⟩

/-- Claim C5 (amended): the body persisted by create/save equals the raw
description whenever the description is non-empty, because the 20-character key
computed in `_save` is truthy and `role_template` then returns the role text
unchanged; the "You are {name}" prefixed form arises only for an empty
description. -/
theorem c5_saved_body_amended (st : Store) (cf : Bool) (n desc : String)
    (st2 : Store) (r : SystemRole)
    (h : Store.create st cf n desc = Except.ok (st2, r)) :
    r.role = if desc = "" then "You are " ++ n ++ "\n" else desc := by
  unfold Store.create at h
  dsimp only [SystemRole.init] at h
  unfold Store.save at h
  split at h
  next => simp at h
  next =>
    simp only [Except.ok.injEq, Prod.mk.injEq] at h
    obtain ⟨hst, hr⟩ := h
    subst hr
    by_cases hd : desc = ""
    · subst hd
      rw [if_pos rfl]
      exact String.append_empty ("You are " ++ n ++ "\n")
    · rw [if_neg hd]
      simp [role_template, pyTake_twenty_ne_empty desc hd]

/-- Claim C5 (witness): creating role "X" with description "X" persists the
body "X" (the non-empty branch of the amended statement). -/
theorem c5_saved_body_witness :
    (⟨"X", "X", none⟩ : SystemRole).role
      = if ("X" : String) = "" then "You are " ++ "X" ++ "\n" else "X" :=
  c5_saved_body_amended ⟨[]⟩ true "X" "X" ⟨[⟨"X", "X", none⟩]⟩ ⟨"X", "X", none⟩ rfl

/-- Claim C6 (code evaluation at the failing input): seeding on an empty store
persists the ShellGPT default with its body literally equal to `DEFAULT_ROLE` —
the `{os}` and `{shell}` placeholders are still present and the supplied
descriptor strings are absent — because the variables dict is passed
positionally into the `message_to_role` field, where it is persisted instead. -/
theorem c6_defaults_unsubstituted :
    (seedDefaults ⟨[]⟩ "MY-OS-NAME" "MY-SHELL-NAME").map
        (fun st => (findName st.files "ShellGPT").map SystemRole.role)
      = Except.ok (some DEFAULT_ROLE)
    ∧ (seedDefaults ⟨[]⟩ "MY-OS-NAME" "MY-SHELL-NAME").map
        (fun st => (findName st.files "ShellGPT").map SystemRole.message_to_role)
      = Except.ok (some (some [("shell", "MY-SHELL-NAME"), ("os", "MY-OS-NAME")]))
    ∧ inStr "{os}".toList DEFAULT_ROLE.toList = true
    ∧ inStr "{shell}".toList DEFAULT_ROLE.toList = true
    ∧ inStr "MY-OS-NAME".toList DEFAULT_ROLE.toList = false
    ∧ inStr "MY-SHELL-NAME".toList DEFAULT_ROLE.toList = false :=
  ⟨rfl, rfl, rfl, rfl, rfl, rfl⟩

/-- Claim C7 (counterexample): when "You are " occurs twice in the first line,
`get_role_name` returns the trimmed text *between* the two occurrences (here,
the empty string), not everything following the substring to the end of the
line. -/
theorem c7_double_occurrence_cex :
    get_role_name [] "You are You are X" = Except.ok (some "")
    ∧ ("" : String) ≠ "You are X" :=
  ⟨rfl, by decide⟩

/-- Claim C7 (amended): for every non-empty message whose first line splits by
"You are " into exactly two fields (i.e. the separator occurs exactly once),
`get_role_name` returns the trimmed second field — everything following the
occurrence to the end of the first line — without consulting the registry. -/
theorem c7_primary_amended (registry : Dict) (m : String) (a b : List Char)
    (h1 : m ≠ "")
    (h2 : pySplit (firstLineChars m.toList) ("You are ".toList) = [a, b]) :
    get_role_name registry m = Except.ok (some (pyStrip b).asString) := by
  have hocc8 : inStr ("You are ".toList) (firstLineChars m.toList) = true :=
    findOcc_isSome_of_pySplit_pair _ _ a b h2
  have hocc7 : inStr ("You are".toList) (firstLineChars m.toList) = true := by
    have hsep : ("You are ".toList : List Char) = "You are".toList ++ [' '] := rfl
    exact inStr_mono _ _ _ (hsep ▸ hocc8)
  unfold get_role_name
  rw [if_neg h1]
  simp only [hocc7, if_true, h2]

/-- Claim C7 (witness): the primary signal recovers the role name from a
rendered "You are ShellGPT" message. -/
theorem c7_primary_witness :
    get_role_name [] "You are ShellGPT\nAnswer questions." = Except.ok (some "ShellGPT") := by
  have h := c7_primary_amended [] "You are ShellGPT\nAnswer questions." [] ("ShellGPT".toList)
    (by decide) rfl
  exact h.trans (by rfl)

/-- Claim C8: whenever create-and-save succeeds, loading the role back by its
name returns exactly the record produced at creation; `get` rebuilds the
instance with no variables, so no re-rendering happens on load. -/
theorem c8_round_trip (st : Store) (cf : Bool) (n desc : String)
    (st2 : Store) (r : SystemRole)
    (h : Store.create st cf n desc = Except.ok (st2, r)) :
    Store.get st2 n = Except.ok r := by
  unfold Store.create at h
  dsimp only [SystemRole.init] at h
  unfold Store.save at h
  split at h
  next => simp at h
  next =>
    simp only [Except.ok.injEq, Prod.mk.injEq] at h
    obtain ⟨hst, hr⟩ := h
    subst hst
    subst hr
    unfold Store.get
    have hf := findName_insertFile st.files ⟨n, role_template n desc (pyTake desc 20), none⟩
    dsimp only at hf
    rw [hf]
    rfl

/-- Claim C8 (witness): a concrete create-then-get round trip returning the
created record unchanged. -/
theorem c8_round_trip_witness :
    Store.get ⟨[⟨"Poet", "Write poems.", none⟩]⟩ "Poet"
      = Except.ok ⟨"Poet", "Write poems.", none⟩ :=
  c8_round_trip ⟨[]⟩ true "Poet" "Write poems." ⟨[⟨"Poet", "Write poems.", none⟩]⟩
    ⟨"Poet", "Write poems.", none⟩ rfl

/-- Claim C9: deleting an existing role with the confirmation declined aborts
before `unlink`, leaving the store unchanged and the record still present. -/
theorem c9_delete_declined (st : Store) (n : String) (h : st.existsName n = true) :
    Store.delete st n false = (st, DeleteResult.aborted)
    ∧ (Store.delete st n false).1.existsName n = true := by
  refine ⟨?_, ?_⟩ <;> simp [Store.delete, h]

/-- Claim C9 (witness): declining the confirmation for the concrete role "X"
leaves the store unchanged with the record still present. -/
theorem c9_delete_declined_witness :
    Store.delete ⟨[⟨"X", "A role.", none⟩]⟩ "X" false
      = (⟨[⟨"X", "A role.", none⟩]⟩, DeleteResult.aborted)
    ∧ (Store.delete ⟨[⟨"X", "A role.", none⟩]⟩ "X" false).1.existsName "X" = true :=
  c9_delete_declined ⟨[⟨"X", "A role.", none⟩]⟩ "X" rfl

/-- Claim C10: constructing a role with an empty variables dict behaves exactly
like passing no variables at all — the dict is falsy, so no substitution is
attempted, no missing-variable error can occur, and the stored role text is the
input unchanged (even if it contains placeholder tokens). -/
theorem c10_empty_vars_like_none (n role : String) (mtr : Option Dict) :
    SystemRole.init n role mtr (some []) = SystemRole.init n role mtr none
    ∧ SystemRole.init n role mtr none = Except.ok ⟨n, role, mtr⟩ :=
  ⟨rfl, rfl⟩

end ShellGPT
